import Mathlib

/-!
# Verification of the Chroma Challenge color game core

Shallow embedding of `src/components/ColorGame.tsx`: the level generator,
the game state machine (start / playing / gameover), the clock tick and the
click handler.  JavaScript numbers are modelled as `ℚ` (the arithmetic here
involves only small exact values), `Math.floor` as `Int.floor`, and each
`Math.random()` call as an explicit rational draw in `[0,1)`.

A color string `hsl(h, s%, l%)` is modelled by its three numeric components,
since the template string is injective in them for the values produced here.
-/

/-- The three components of an `hsl(h, s%, l%)` color string. -/
structure HSL where
  h : ℚ
  s : ℚ
  l : ℚ
deriving DecidableEq, Repr

/-- `ColorState` from the source: base color, differing (target) color,
target tile index and the numeric delta of the level. -/
structure ColorState where
  baseColor : HSL
  diffColor : HSL
  diffIndex : ℤ
  delta : ℚ
deriving DecidableEq, Repr

/-- The five `Math.random()` draws consumed by one call of `generateLevel`,
in source order: hue, saturation, lightness, lighter/darker direction,
target index. -/
structure Draws where
  rHue : ℚ
  rSat : ℚ
  rLight : ℚ
  rDir : ℚ
  rIdx : ℚ
deriving DecidableEq, Repr

/-- Every draw of `Math.random()` lies in `[0, 1)`. -/
def Draws.Valid (d : Draws) : Prop :=
  0 ≤ d.rHue ∧ d.rHue < 1 ∧ 0 ≤ d.rSat ∧ d.rSat < 1 ∧ 0 ≤ d.rLight ∧
    d.rLight < 1 ∧ 0 ≤ d.rDir ∧ d.rDir < 1 ∧ 0 ≤ d.rIdx ∧ d.rIdx < 1

instance (d : Draws) : Decidable d.Valid := by
  unfold Draws.Valid; infer_instance

/-- `generateLevel` from the source (lines 28–56).  `gridSize` is the value
of the `gridSize` state variable captured by the `useCallback` closure at
the time of the call; note that line 48 of the source computes `diffIndex`
from this captured `gridSize`, not from `newGridSize`.  Returns the new grid
size (passed to `setGridSize`) and the new `ColorState` (passed to
`setColorState`). -/
def generateLevel (d : Draws) (gridSize : ℤ) (level : ℕ) : ℤ × ColorState :=
  let baseDelta : ℚ := max 1 (15 - (level : ℚ) * 0.8)
  let newGridSize : ℤ := min 9 ⌊(5 : ℚ) + ((level : ℚ) - 1) / 5⌋
  let hue : ℤ := ⌊d.rHue * 360⌋
  let saturation : ℤ := ⌊d.rSat * 40⌋ + 60
  let lightness : ℤ := ⌊d.rLight * 40⌋ + 30
  let baseColor : HSL := ⟨hue, saturation, lightness⟩
  -- `isLighter` (source line 44) is the condition `Math.random() > 0.5`,
  -- inlined into the conditional below
  let lDiff : ℚ := if d.rDir > 0.5 then baseDelta else -baseDelta
  let diffColor : HSL := ⟨hue, saturation, min 100 (max 0 ((lightness : ℚ) + lDiff))⟩
  let diffIndex : ℤ := ⌊d.rIdx * ((gridSize : ℚ) * (gridSize : ℚ))⌋
  (newGridSize, ⟨baseColor, diffColor, diffIndex, baseDelta⟩)

/-- The `gameState` values `'start' | 'playing' | 'gameover'`. -/
inductive GState where
  | start
  | playing
  | gameover
deriving DecidableEq, Repr

/-- The whole mutable state of the component: `gameState`, `colorState`,
`stats` (inlined fields), `timeLeft` and `gridSize`. -/
structure Session where
  gameState : GState
  colorState : Option ColorState
  score : ℕ
  startTime : ℤ
  endTime : ℤ
  level : ℕ
  timeLeft : ℤ
  gridSize : ℤ
deriving DecidableEq, Repr

/-- The initial `useState` values (lines 21–25): start screen, no color
state, zeroed stats at level 1, 45 seconds, grid size 5. -/
def initialSession : Session :=
  { gameState := .start
    colorState := none
    score := 0
    startTime := 0
    endTime := 0
    level := 1
    timeLeft := 45
    gridSize := 5 }

/-- `startGame` (lines 59–64): reset stats with `startTime = now`, set
`timeLeft` to 45, enter `playing`, then run `generateLevel 1` — whose
closure captured the current `gridSize`. -/
def startGame (d : Draws) (now : ℤ) (s : Session) : Session :=
  let gl := generateLevel d s.gridSize 1
  { gameState := .playing
    colorState := some gl.2
    score := 0
    startTime := now
    endTime := 0
    level := 1
    timeLeft := 45
    gridSize := gl.1 }

/-- `endGame` (lines 83–86): enter `gameover` and record `endTime = now`. -/
def endGame (now : ℤ) (s : Session) : Session :=
  { s with gameState := .gameover, endTime := now }

/-- One interval tick of the timer effect (lines 67–81).  The effect is only
installed while `gameState = 'playing'` (line 68), so a tick outside that
phase does nothing.  A tick with `timeLeft ≤ 1` calls `endGame` and sets
`timeLeft` to 0; otherwise it decrements `timeLeft`. -/
def tick (now : ℤ) (s : Session) : Session :=
  if s.gameState ≠ .playing then s
  else if s.timeLeft ≤ 1 then endGame now { s with timeLeft := 0 }
  else { s with timeLeft := s.timeLeft - 1 }

/-- `handleBlockClick` (lines 88–110).  No-op unless `playing` with an
active `colorState`.  A click on `diffIndex` bumps score and level, adds the
capped time bonus and installs `generateLevel` for the new level (again with
the captured current `gridSize`); any other click costs 5 seconds, clamped
at 0.  The shake animation is presentational and not modelled. -/
def handleBlockClick (d : Draws) (index : ℤ) (s : Session) : Session :=
  if s.gameState ≠ .playing then s
  else
    match s.colorState with
    | none => s
    | some cs =>
      if index = cs.diffIndex then
        let newLevel := s.level + 1
        let gl := generateLevel d s.gridSize newLevel
        { s with
            score := s.score + 1
            level := newLevel
            timeLeft := min 60 (s.timeLeft + 1)
            gridSize := gl.1
            colorState := some gl.2 }
      else
        { s with timeLeft := max 0 (s.timeLeft - 5) }

/-- Background color of tile `i` in the rendered grid (line 182):
`diffColor` exactly at `diffIndex`, `baseColor` everywhere else. -/
def tileColor (cs : ColorState) (i : ℤ) : HSL :=
  if i = cs.diffIndex then cs.diffColor else cs.baseColor

/-- Modelled from the spec: `gridSize(L) = min(9, floor(5 + (L-1)/5))`,
stated with natural-number (floor) division as in §4.1.  Used to compare
the source's grid-size computation against the spec formula. -/
def specGridSize (L : ℕ) : ℕ :=
  min 9 (5 + (L - 1) / 5)

/-- Modelled from the spec: `delta(L) = max(1, 15 - 0.8*L)` (§4.1). -/
def specDelta (L : ℕ) : ℚ :=
  max 1 (15 - 0.8 * (L : ℚ))

/-- States reachable once the first `startGame` has run: `startGame` may
fire from any prior state (in particular from `gameover`, via the restart
button), and thereafter clicks and clock ticks drive the session. -/
inductive Reachable : Session → Prop where
  | start (d : Draws) (now : ℤ) (s : Session) : Reachable (startGame d now s)
  | click (d : Draws) (i : ℤ) (s : Session) :
      Reachable s → Reachable (handleBlockClick d i s)
  | tick (now : ℤ) (s : Session) : Reachable s → Reachable (tick now s)

/-! ## Concrete objects used by witnesses -/

/-- All-zero random draws, a valid concrete sample. -/
def dZero : Draws := ⟨0, 0, 0, 0, 0⟩

/-- A concrete playing session: the first game started from the initial
component state. -/
def sPlay : Session := startGame dZero 0 initialSession

/-- The color state generated for that first level. -/
def csZero : ColorState := (generateLevel dZero 5 1).2

/-! ## Theorems -/

/-- C4: a click on the target index while playing increments `score` and
`level` by exactly one, sets `timeLeft` to `min 60 (timeLeft + 1)`, and
installs the result of the level generator for the new level (all other
fields unchanged). -/
theorem correct_click_advances (d : Draws) (s : Session) (cs : ColorState)
    (hphase : s.gameState = .playing) (hcs : s.colorState = some cs) :
    handleBlockClick d cs.diffIndex s =
      { s with
          score := s.score + 1
          level := s.level + 1
          timeLeft := min 60 (s.timeLeft + 1)
          gridSize := (generateLevel d s.gridSize (s.level + 1)).1
          colorState := some (generateLevel d s.gridSize (s.level + 1)).2 } := by
  simp [handleBlockClick, hphase, hcs]

/-- Witness for C4 at the concrete first-level session. -/
theorem correct_click_advances_witness :
    sPlay.gameState = .playing ∧ sPlay.colorState = some csZero ∧
    handleBlockClick dZero csZero.diffIndex sPlay =
      { sPlay with
          score := sPlay.score + 1
          level := sPlay.level + 1
          timeLeft := min 60 (sPlay.timeLeft + 1)
          gridSize := (generateLevel dZero sPlay.gridSize (sPlay.level + 1)).1
          colorState := some (generateLevel dZero sPlay.gridSize (sPlay.level + 1)).2 } :=
  ⟨rfl, rfl, correct_click_advances dZero sPlay csZero rfl rfl⟩

/-- C5: a click on a non-target index while playing only clamps
`timeLeft` down by 5 (never below 0); score, level, phase and the level
color state are untouched, and the phase stays `playing` even when the
penalty reaches 0. -/
theorem wrong_click_penalty (d : Draws) (i : ℤ) (s : Session) (cs : ColorState)
    (hphase : s.gameState = .playing) (hcs : s.colorState = some cs)
    (hi : i ≠ cs.diffIndex) :
    handleBlockClick d i s = { s with timeLeft := max 0 (s.timeLeft - 5) } ∧
    (handleBlockClick d i s).gameState = .playing := by
  constructor
  · simp [handleBlockClick, hphase, hcs, hi]
  · simp [handleBlockClick, hphase, hcs, hi]

/-- Witness for C5: clicking tile 1 (the target is tile 0) of the first
level. -/
theorem wrong_click_penalty_witness :
    sPlay.gameState = .playing ∧ sPlay.colorState = some csZero ∧
    (1 : ℤ) ≠ csZero.diffIndex ∧
    (handleBlockClick dZero 1 sPlay = { sPlay with timeLeft := max 0 (sPlay.timeLeft - 5) } ∧
      (handleBlockClick dZero 1 sPlay).gameState = .playing) :=
  ⟨rfl, rfl, by simp [csZero, dZero, generateLevel],
    wrong_click_penalty dZero 1 sPlay csZero rfl rfl (by simp [csZero, dZero, generateLevel])⟩

/-- C6: a clock tick while playing either ends the game (when
`timeLeft ≤ 1`: `timeLeft` becomes 0, the phase becomes `gameover` and
`endTime` is recorded) or just decrements `timeLeft`, leaving everything
else — the phase included — unchanged. -/
theorem clock_tick_behavior (now : ℤ) (s : Session)
    (hphase : s.gameState = .playing) :
    (s.timeLeft ≤ 1 →
      tick now s =
        { s with timeLeft := 0, gameState := .gameover, endTime := now }) ∧
    (1 < s.timeLeft → tick now s = { s with timeLeft := s.timeLeft - 1 }) := by
  constructor
  · intro h
    simp [tick, endGame, hphase, h]
  · intro h
    simp [tick, endGame, hphase, not_le.mpr h]

/-- Witness for C6 at the concrete first-level session (45 seconds left). -/
theorem clock_tick_behavior_witness :
    sPlay.gameState = .playing ∧ (1 : ℤ) < sPlay.timeLeft ∧
    tick 7 sPlay = { sPlay with timeLeft := sPlay.timeLeft - 1 } :=
  ⟨rfl, by decide, (clock_tick_behavior 7 sPlay rfl).2 (by decide)⟩

/-- C9: clicks and clock ticks are no-ops outside the playing phase, and a
click is also a no-op when no color state is installed. -/
theorem not_playing_noop (d : Draws) (i : ℤ) (now : ℤ) (s : Session) :
    (s.gameState ≠ .playing → handleBlockClick d i s = s ∧ tick now s = s) ∧
    (s.colorState = none → handleBlockClick d i s = s) := by
  constructor
  · intro h
    constructor
    · simp [handleBlockClick, h]
    · simp [tick, h]
  · intro h
    by_cases hg : s.gameState = .playing
    · simp [handleBlockClick, hg, h]
    · simp [handleBlockClick, hg]

/-- Witness for C9 at the initial state (start screen, no color state). -/
theorem not_playing_noop_witness :
    initialSession.gameState ≠ .playing ∧ initialSession.colorState = none ∧
    (handleBlockClick dZero 3 initialSession = initialSession ∧
      tick 7 initialSession = initialSession) ∧
    handleBlockClick dZero 3 initialSession = initialSession :=
  ⟨by decide, rfl, (not_playing_noop dZero 3 7 initialSession).1 (by decide),
    (not_playing_noop dZero 3 7 initialSession).2 rfl⟩

/-- C10: in every session state reachable after the first `startGame`,
`level = score + 1`: the reset establishes it and every click or tick
preserves it. -/
theorem level_eq_score_succ (s : Session) (h : Reachable s) :
    s.level = s.score + 1 := by
  induction h with
  | start d now s0 => rfl
  | click d i s0 _ ih =>
    unfold handleBlockClick
    split
    · exact ih
    · split
      · exact ih
      · split
        · simp only []
          omega
        · exact ih
  | tick now s0 _ ih =>
    unfold tick
    split
    · exact ih
    · split
      · exact ih
      · exact ih

/-- Witness for C10 at the concrete first-level session. -/
theorem level_eq_score_succ_witness :
    sPlay.level = sPlay.score + 1 :=
  level_eq_score_succ sPlay (Reachable.start dZero 0 initialSession)

/-- Helper: the grid size computed by `generateLevel` equals the spec's
integer formula for levels ≥ 1. -/
theorem generateLevel_gridSize (d : Draws) (g : ℤ) (L : ℕ) (hL : 1 ≤ L) :
    (generateLevel d g L).1 = (specGridSize L : ℤ) := by
  obtain ⟨n, rfl⟩ : ∃ n, L = n + 1 := ⟨L - 1, by omega⟩
  unfold generateLevel specGridSize
  simp only [Nat.add_sub_cancel]
  have h3 : (((n + 1 : ℕ) : ℚ) - 1) / 5 = ((n : ℤ) : ℚ) / ((5 : ℕ) : ℚ) := by
    push_cast
    ring
  have h2 : ⌊(5 : ℚ) + ((n : ℤ) : ℚ) / ((5 : ℕ) : ℚ)⌋ = 5 + (n : ℤ) / ((5 : ℕ) : ℤ) := by
    rw [show (5 : ℚ) = ((5 : ℤ) : ℚ) by norm_num, Int.floor_int_add,
      Rat.floor_intCast_div_natCast]
  rw [h3, h2]
  push_cast [Nat.cast_min]
  norm_num

/-- Helper: the spec's grid-size formula is monotone in the level. -/
theorem specGridSize_mono {L M : ℕ} (h : L ≤ M) : specGridSize L ≤ specGridSize M := by
  unfold specGridSize
  have : (L - 1) / 5 ≤ (M - 1) / 5 := Nat.div_le_div_right (by omega)
  omega

/-- C7: for every level `L ≥ 1` the generated grid size equals
`min 9 (5 + (L-1)/5)` and is non-decreasing in the level (for any draws and
any captured grid size). -/
theorem gridSize_formula (d : Draws) (g : ℤ) (L : ℕ) (hL : 1 ≤ L) :
    (generateLevel d g L).1 = (specGridSize L : ℤ) ∧
    ∀ (d2 : Draws) (g2 : ℤ) (M : ℕ), L ≤ M →
      (generateLevel d g L).1 ≤ (generateLevel d2 g2 M).1 := by
  refine ⟨generateLevel_gridSize d g L hL, ?_⟩
  intro d2 g2 M hM
  rw [generateLevel_gridSize d g L hL, generateLevel_gridSize d2 g2 M (by omega)]
  exact_mod_cast specGridSize_mono hM

/-- Witness for C7 at level 1. -/
theorem gridSize_formula_witness :
    (1 : ℕ) ≤ 1 ∧
    ((generateLevel dZero 5 1).1 = (specGridSize 1 : ℤ) ∧
      ∀ (d2 : Draws) (g2 : ℤ) (M : ℕ), 1 ≤ M →
        (generateLevel dZero 5 1).1 ≤ (generateLevel d2 g2 M).1) :=
  ⟨le_refl 1, gridSize_formula dZero 5 1 (le_refl 1)⟩

/-- C8: the generated delta equals `max 1 (15 - 0.8*L)`, is at least 1, and
is non-increasing in the level. -/
theorem delta_formula (d : Draws) (g : ℤ) (L : ℕ) (_hL : 1 ≤ L) :
    (generateLevel d g L).2.delta = specDelta L ∧
    1 ≤ (generateLevel d g L).2.delta ∧
    ∀ (d2 : Draws) (g2 : ℤ) (M : ℕ), L ≤ M →
      (generateLevel d2 g2 M).2.delta ≤ (generateLevel d g L).2.delta := by
  refine ⟨?_, ?_, ?_⟩
  · unfold generateLevel specDelta
    ring_nf
  · unfold generateLevel
    exact le_max_left 1 _
  · intro d2 g2 M hM
    unfold generateLevel
    simp only []
    apply max_le_max (le_refl (1 : ℚ))
    have : (L : ℚ) ≤ (M : ℚ) := by exact_mod_cast hM
    nlinarith

/-- Witness for C8 at level 1. -/
theorem delta_formula_witness :
    (1 : ℕ) ≤ 1 ∧
    ((generateLevel dZero 5 1).2.delta = specDelta 1 ∧
      1 ≤ (generateLevel dZero 5 1).2.delta ∧
      ∀ (d2 : Draws) (g2 : ℤ) (M : ℕ), 1 ≤ M →
        (generateLevel d2 g2 M).2.delta ≤ (generateLevel dZero 5 1).2.delta) :=
  ⟨le_refl 1, delta_formula dZero 5 1 (le_refl 1)⟩

/-- Draws matching a restart after a long game: the tile-index draw is 1/2. -/
def dBug : Draws := ⟨0, 0, 0, 0, 1/2⟩

/-- A finished session whose last level used the maximal 9×9 grid. -/
def sEnd : Session :=
  { gameState := .gameover
    colorState := none
    score := 30
    startTime := 0
    endTime := 100
    level := 31
    timeLeft := 0
    gridSize := 9 }

/-- C1 fails on the code: `diffIndex` (source line 48) is drawn from the
`gridSize` captured by the `useCallback` closure, not from `newGridSize`.
Restarting after a 9×9 game gives a level-1 session whose 5×5 grid has
target index 40 — outside the 25 rendered tiles, so no tile shows the
target color; and at the level-6 transition (captured grid 5, new grid 6)
index 30 of the 36 rendered tiles can never be the target. -/
theorem target_index_stale_grid :
    (startGame dBug 5 sEnd).gridSize = 5 ∧
    (startGame dBug 5 sEnd).colorState.map ColorState.diffIndex = some 40 ∧
    ¬ (40 < (startGame dBug 5 sEnd).gridSize * (startGame dBug 5 sEnd).gridSize) ∧
    (∃ cs : ColorState, (startGame dBug 5 sEnd).colorState = some cs ∧
      tileColor cs 12 = cs.baseColor ∧ tileColor cs 24 = cs.baseColor) ∧
    (generateLevel dBug 5 6).1 = 6 ∧
    ¬ ∃ d : Draws, d.Valid ∧ (generateLevel d 5 6).2.diffIndex = 30 := by
  refine ⟨?_, ?_, ?_, ?_, ?_, ?_⟩
  · norm_num [startGame, generateLevel, sEnd, dBug, specGridSize]
  · norm_num [startGame, generateLevel, sEnd, dBug]
  · norm_num [startGame, generateLevel, sEnd, dBug]
  · refine ⟨(generateLevel dBug sEnd.gridSize 1).2, rfl, ?_, ?_⟩ <;>
      norm_num [tileColor, generateLevel, sEnd, dBug]
  · norm_num [generateLevel]
  · rintro ⟨d, hv, hd⟩
    have h25 : (generateLevel d 5 6).2.diffIndex ≤ 24 := by
      unfold generateLevel
      simp only []
      have : d.rIdx * (((5 : ℤ) : ℚ) * ((5 : ℤ) : ℚ)) < 25 := by
        obtain ⟨-, -, -, -, -, -, -, -, h0, h1⟩ := hv
        push_cast
        nlinarith
      have := Int.floor_lt.mpr (by exact_mod_cast this : d.rIdx * (((5 : ℤ) : ℚ) * ((5 : ℤ) : ℚ)) < ((25 : ℤ) : ℚ))
      omega
    omega

/-- Helper: the base color produced by `generateLevel`, componentwise. -/
theorem generateLevel_baseColor (d : Draws) (g : ℤ) (L : ℕ) :
    (generateLevel d g L).2.baseColor =
      ⟨((⌊d.rHue * 360⌋ : ℤ) : ℚ), ((⌊d.rSat * 40⌋ + 60 : ℤ) : ℚ),
        ((⌊d.rLight * 40⌋ + 30 : ℤ) : ℚ)⟩ := rfl

/-- Helper: the target color produced by `generateLevel`, componentwise. -/
theorem generateLevel_diffColor (d : Draws) (g : ℤ) (L : ℕ) :
    (generateLevel d g L).2.diffColor =
      ⟨((⌊d.rHue * 360⌋ : ℤ) : ℚ), ((⌊d.rSat * 40⌋ + 60 : ℤ) : ℚ),
        min 100 (max 0 (((⌊d.rLight * 40⌋ + 30 : ℤ) : ℚ) +
          (if d.rDir > 0.5 then max 1 (15 - (L : ℚ) * 0.8)
            else -(max 1 (15 - (L : ℚ) * 0.8)))))⟩ := rfl

/-- Helper: the delta produced by `generateLevel`. -/
theorem generateLevel_delta (d : Draws) (g : ℤ) (L : ℕ) :
    (generateLevel d g L).2.delta = max 1 (15 - (L : ℚ) * 0.8) := rfl

/-- C3 counterexample: saturation 100 can never be generated — the source
computes `Math.floor(Math.random() * 40) + 60`, which is at most 99, so the
spec's closed interval `[60,100]` is off by one at the top. -/
theorem saturation_100_unreachable :
    ¬ ∃ d : Draws, d.Valid ∧ (generateLevel d 5 1).2.baseColor.s = 100 := by
  rintro ⟨d, hv, hs⟩
  obtain ⟨-, -, h0, h1, -, -, -, -, -, -⟩ := hv
  rw [generateLevel_baseColor] at hs
  dsimp only at hs
  have h100 : ⌊d.rSat * 40⌋ + 60 = 100 := by exact_mod_cast hs
  have h40 : ⌊d.rSat * 40⌋ = 40 := by omega
  have : ((40 : ℤ) : ℚ) ≤ d.rSat * 40 := Int.le_floor.mp h40.ge
  push_cast at this
  nlinarith

/-- C3 (amended): for any valid draws the base hue lies in `[0,360)`, the
saturation in `[60,99]` (the spec's `[60,100]` is off by one: 100 is never
produced) and the lightness in `[30,69]` (likewise 70 is never produced);
each value of those ranges is a possible outcome; the target color keeps
hue and saturation and shifts the lightness by `±delta` — the sign decided
by the direction draw — clamped to `[0,100]`. -/
theorem color_generation_ranges (d : Draws) (hd : d.Valid) (g : ℤ) (L : ℕ) :
    (0 ≤ (generateLevel d g L).2.baseColor.h ∧ (generateLevel d g L).2.baseColor.h < 360) ∧
    (60 ≤ (generateLevel d g L).2.baseColor.s ∧ (generateLevel d g L).2.baseColor.s ≤ 99) ∧
    (30 ≤ (generateLevel d g L).2.baseColor.l ∧ (generateLevel d g L).2.baseColor.l ≤ 69) ∧
    (generateLevel d g L).2.diffColor.h = (generateLevel d g L).2.baseColor.h ∧
    (generateLevel d g L).2.diffColor.s = (generateLevel d g L).2.baseColor.s ∧
    (0.5 < d.rDir →
      (generateLevel d g L).2.diffColor.l =
        min 100 (max 0 ((generateLevel d g L).2.baseColor.l + (generateLevel d g L).2.delta))) ∧
    (d.rDir ≤ 0.5 →
      (generateLevel d g L).2.diffColor.l =
        min 100 (max 0 ((generateLevel d g L).2.baseColor.l - (generateLevel d g L).2.delta))) ∧
    (∃ dU : Draws, dU.Valid ∧ 0.5 < dU.rDir) ∧
    (∃ dD : Draws, dD.Valid ∧ dD.rDir ≤ 0.5) ∧
    (∀ v : ℤ, 0 ≤ v → v < 360 →
      ∃ d2 : Draws, d2.Valid ∧ (generateLevel d2 g L).2.baseColor.h = (v : ℚ)) ∧
    (∀ v : ℤ, 60 ≤ v → v ≤ 99 →
      ∃ d2 : Draws, d2.Valid ∧ (generateLevel d2 g L).2.baseColor.s = (v : ℚ)) ∧
    (∀ v : ℤ, 30 ≤ v → v ≤ 69 →
      ∃ d2 : Draws, d2.Valid ∧ (generateLevel d2 g L).2.baseColor.l = (v : ℚ)) := by
  obtain ⟨hH0, hH1, hS0, hS1, hL0, hL1, hD0, hD1, hI0, hI1⟩ := hd
  refine ⟨⟨?_, ?_⟩, ⟨?_, ?_⟩, ⟨?_, ?_⟩, rfl, rfl, ?_, ?_, ?_, ?_, ?_, ?_, ?_⟩
  · rw [generateLevel_baseColor]
    dsimp only
    have : (0 : ℤ) ≤ ⌊d.rHue * 360⌋ := Int.le_floor.mpr (by push_cast; nlinarith)
    exact_mod_cast this
  · rw [generateLevel_baseColor]
    dsimp only
    have : ⌊d.rHue * 360⌋ < 360 := Int.floor_lt.mpr (by push_cast; nlinarith)
    exact_mod_cast this
  · rw [generateLevel_baseColor]
    dsimp only
    have : (0 : ℤ) ≤ ⌊d.rSat * 40⌋ := Int.le_floor.mpr (by push_cast; nlinarith)
    have h : (60 : ℤ) ≤ ⌊d.rSat * 40⌋ + 60 := by omega
    exact_mod_cast h
  · rw [generateLevel_baseColor]
    dsimp only
    have : ⌊d.rSat * 40⌋ < 40 := Int.floor_lt.mpr (by push_cast; nlinarith)
    have h : ⌊d.rSat * 40⌋ + 60 ≤ 99 := by omega
    exact_mod_cast h
  · rw [generateLevel_baseColor]
    dsimp only
    have : (0 : ℤ) ≤ ⌊d.rLight * 40⌋ := Int.le_floor.mpr (by push_cast; nlinarith)
    have h : (30 : ℤ) ≤ ⌊d.rLight * 40⌋ + 30 := by omega
    exact_mod_cast h
  · rw [generateLevel_baseColor]
    dsimp only
    have : ⌊d.rLight * 40⌋ < 40 := Int.floor_lt.mpr (by push_cast; nlinarith)
    have h : ⌊d.rLight * 40⌋ + 30 ≤ 69 := by omega
    exact_mod_cast h
  · intro h
    rw [generateLevel_diffColor, generateLevel_baseColor, generateLevel_delta]
    dsimp only
    rw [if_pos h]
  · intro h
    rw [generateLevel_diffColor, generateLevel_baseColor, generateLevel_delta]
    dsimp only
    rw [if_neg (by exact not_lt.mpr h)]
    simp only [sub_eq_add_neg]
  · exact ⟨⟨0, 0, 0, 0.6, 0⟩, by norm_num [Draws.Valid], by norm_num⟩
  · exact ⟨dZero, by decide, by norm_num [dZero]⟩
  · intro v hv0 hv1
    refine ⟨⟨(v : ℚ) / 360, 0, 0, 0, 0⟩, ?_, ?_⟩
    · refine ⟨by positivity, ?_, by norm_num, by norm_num, by norm_num, by norm_num,
        by norm_num, by norm_num, by norm_num, by norm_num⟩
      rw [div_lt_one (by norm_num)]
      exact_mod_cast hv1
    · rw [generateLevel_baseColor]
      dsimp only
      rw [div_mul_cancel₀ _ (by norm_num : (360 : ℚ) ≠ 0), Int.floor_intCast]
  · intro v hv0 hv1
    refine ⟨⟨0, ((v : ℚ) - 60) / 40, 0, 0, 0⟩, ?_, ?_⟩
    · refine ⟨by norm_num, by norm_num, ?_, ?_, by norm_num, by norm_num,
        by norm_num, by norm_num, by norm_num, by norm_num⟩
      · apply div_nonneg _ (by norm_num)
        have : (60 : ℚ) ≤ (v : ℚ) := by exact_mod_cast hv0
        linarith
      · rw [div_lt_one (by norm_num)]
        have : (v : ℚ) ≤ 99 := by exact_mod_cast hv1
        linarith
    · rw [generateLevel_baseColor]
      dsimp only
      rw [div_mul_cancel₀ _ (by norm_num : (40 : ℚ) ≠ 0)]
      rw [show (v : ℚ) - 60 = ((v - 60 : ℤ) : ℚ) by push_cast; ring, Int.floor_intCast]
      push_cast
      ring
  · intro v hv0 hv1
    refine ⟨⟨0, 0, ((v : ℚ) - 30) / 40, 0, 0⟩, ?_, ?_⟩
    · refine ⟨by norm_num, by norm_num, by norm_num, by norm_num, ?_, ?_,
        by norm_num, by norm_num, by norm_num, by norm_num⟩
      · apply div_nonneg _ (by norm_num)
        have : (30 : ℚ) ≤ (v : ℚ) := by exact_mod_cast hv0
        linarith
      · rw [div_lt_one (by norm_num)]
        have : (v : ℚ) ≤ 69 := by exact_mod_cast hv1
        linarith
    · rw [generateLevel_baseColor]
      dsimp only
      rw [div_mul_cancel₀ _ (by norm_num : (40 : ℚ) ≠ 0)]
      rw [show (v : ℚ) - 30 = ((v - 30 : ℤ) : ℚ) by push_cast; ring, Int.floor_intCast]
      push_cast
      ring

/-- Witness for C3 at the all-zero draws, grid 5, level 1. -/
theorem color_generation_ranges_witness :
    dZero.Valid ∧
    ((0 ≤ (generateLevel dZero 5 1).2.baseColor.h ∧ (generateLevel dZero 5 1).2.baseColor.h < 360) ∧
    (60 ≤ (generateLevel dZero 5 1).2.baseColor.s ∧ (generateLevel dZero 5 1).2.baseColor.s ≤ 99) ∧
    (30 ≤ (generateLevel dZero 5 1).2.baseColor.l ∧ (generateLevel dZero 5 1).2.baseColor.l ≤ 69) ∧
    (generateLevel dZero 5 1).2.diffColor.h = (generateLevel dZero 5 1).2.baseColor.h ∧
    (generateLevel dZero 5 1).2.diffColor.s = (generateLevel dZero 5 1).2.baseColor.s ∧
    (0.5 < dZero.rDir →
      (generateLevel dZero 5 1).2.diffColor.l =
        min 100 (max 0 ((generateLevel dZero 5 1).2.baseColor.l + (generateLevel dZero 5 1).2.delta))) ∧
    (dZero.rDir ≤ 0.5 →
      (generateLevel dZero 5 1).2.diffColor.l =
        min 100 (max 0 ((generateLevel dZero 5 1).2.baseColor.l - (generateLevel dZero 5 1).2.delta))) ∧
    (∃ dU : Draws, dU.Valid ∧ 0.5 < dU.rDir) ∧
    (∃ dD : Draws, dD.Valid ∧ dD.rDir ≤ 0.5) ∧
    (∀ v : ℤ, 0 ≤ v → v < 360 →
      ∃ d2 : Draws, d2.Valid ∧ (generateLevel d2 5 1).2.baseColor.h = (v : ℚ)) ∧
    (∀ v : ℤ, 60 ≤ v → v ≤ 99 →
      ∃ d2 : Draws, d2.Valid ∧ (generateLevel d2 5 1).2.baseColor.s = (v : ℚ)) ∧
    (∀ v : ℤ, 30 ≤ v → v ≤ 69 →
      ∃ d2 : Draws, d2.Valid ∧ (generateLevel d2 5 1).2.baseColor.l = (v : ℚ))) :=
  ⟨by decide, color_generation_ranges dZero (by decide) 5 1⟩

/-- C2 fails on the code: with the level and all five random draws fixed,
the produced `diffIndex` still depends on the previously committed
`gridSize` (25·(1/2) vs 81·(1/2) below), so `generateLevel` is not a pure
function of its level argument. -/
theorem generateLevel_not_pure :
    (generateLevel dBug 5 1).2.diffIndex = 12 ∧
    (generateLevel dBug 9 1).2.diffIndex = 40 ∧
    (generateLevel dBug 5 1).2 ≠ (generateLevel dBug 9 1).2 := by
  refine ⟨?_, ?_, ?_⟩
  · norm_num [generateLevel, dBug]
  · norm_num [generateLevel, dBug]
  · intro h
    have h1 : (generateLevel dBug 5 1).2.diffIndex = (generateLevel dBug 9 1).2.diffIndex := by
      rw [h]
    norm_num [generateLevel, dBug] at h1
